import Mathlib

/-!
Shallow embedding of the JupyterLite Next.js dynamic loader
(`nextjs-integration/utils/jupyterlite-loader.ts`).

The loader's asynchronous, DOM-effectful functions are embedded as pure
Lean functions over explicit state:

* a DOM element's `classList` is a duplicate-free `List String`
  (`classAdd` / `classRemove` mirror `classList.add` / `classList.remove`);
* the promise of an async step that can reject is an `Except`;
* the localforage settings read and the `window.matchMedia` signal are
  supplied as `Except`-valued environment inputs;
* the module-federation page globals (`window._JUPYTERLAB`,
  `__webpack_init_sharing__`) are an explicit environment record;
* the module-level `instances` map and the `window.jupyter` /
  `window.jupyterKernelBridge` handles are an explicit `GlobalState`,
  instrumented with a counter for executions of the global-teardown block.
-/

namespace JLLoader

/-! ### DOM classList model -/

abbrev ClassList := List String

/-- `el.classList.add(c)`: a DOM token list ignores an add of a token it
already holds, otherwise appends it. -/
def classAdd (cl : ClassList) (c : String) : ClassList :=
  if c ∈ cl then cl else cl ++ [c]

/-- `el.classList.remove(c)`: removes the token wherever it occurs. -/
def classRemove (cl : ClassList) (c : String) : ClassList :=
  cl.filter (fun x => x ≠ c)

theorem mem_classAdd {cl : ClassList} {x c : String} :
    x ∈ classAdd cl c ↔ x ∈ cl ∨ x = c := by
  unfold classAdd
  split_ifs with h
  · constructor
    · exact Or.inl
    · rintro (hx | rfl)
      · exact hx
      · exact h
  · simp [List.mem_append]

theorem mem_classRemove {cl : ClassList} {x c : String} :
    x ∈ classRemove cl c ↔ x ∈ cl ∧ x ≠ c := by
  simp [classRemove, List.mem_filter]

theorem self_not_mem_classRemove {cl : ClassList} {c : String} :
    c ∉ classRemove cl c := by
  simp [mem_classRemove]

/-! ### Theme name extraction

`applyAutoTheme` runs the JavaScript regular expression
`/"theme"\s*:\s*"([^"]+)"/i` over the stored settings blob and takes the
first capture group.  The embedding implements leftmost-first matching of
exactly that pattern over the character list of the blob. -/

/-- The character class `\s` of the regex, on the ASCII range. -/
def jsWhitespace (c : Char) : Bool :=
  c = ' ' || c = '\t' || c = '\n' || c = '\r' || c = '\x0b' || c = '\x0c'

/-- Case-insensitive literal match (the regex carries the `i` flag);
returns the remaining input on success. -/
def matchLitCI : List Char → List Char → Option (List Char)
  | [], rest => some rest
  | _ :: _, [] => none
  | l :: ls, c :: cs =>
    if l.toLower = c.toLower then matchLitCI ls cs else none

/-- `\s*`: drop leading whitespace. -/
def dropWs : List Char → List Char
  | [] => []
  | c :: cs => if jsWhitespace c then dropWs cs else c :: cs

/-- `([^"]+)"`: capture one or more non-quote characters, then require the
closing quote.  `acc` holds the capture so far, reversed. -/
def captureToQuote : List Char → List Char → Option (List Char)
  | _, [] => none
  | acc, c :: cs =>
    if c = '"' then (if acc.isEmpty then none else some acc.reverse)
    else captureToQuote (c :: acc) cs

/-- Try the pattern `"theme"\s*:\s*"([^"]+)"` anchored at the head of `s`,
returning the capture group. -/
def matchThemeAt (s : List Char) : Option (List Char) :=
  match matchLitCI "\"theme\"".data s with
  | none => none
  | some r1 =>
    match dropWs r1 with
    | ':' :: r2 =>
      match dropWs r2 with
      | '"' :: r3 => captureToQuote [] r3
      | _ => none
    | _ => none

/-- Leftmost-first search, as `String.prototype.match` performs for a
non-global regex. -/
def findThemeMatch : List Char → Option (List Char)
  | [] => none
  | c :: rest =>
    match matchThemeAt (c :: rest) with
    | some cap => some cap
    | none => findThemeMatch rest

/-- `settings.match(themeRegex)` followed by taking `matches[1]`. -/
def extractThemeName (settings : String) : Option String :=
  (findThemeMatch settings.data).map (fun cs => String.mk cs)

/-- `String.prototype.includes` on character lists. -/
def containsSub : List Char → List Char → Bool
  | [], sub => sub.isEmpty
  | c :: rest, sub => sub.isPrefixOf (c :: rest) || containsSub rest sub

/-- `s.toLowerCase()`. -/
def lowerStr (s : String) : String :=
  String.mk (s.data.map Char.toLower)

/-- The classification of an extracted theme name:
`themeName.includes('dark') || themeName.includes('night') ||
themeName.includes('black')` after lowercasing. -/
def isDarkThemeName (name : String) : Bool :=
  containsSub (lowerStr name).data "dark".data ||
  containsSub (lowerStr name).data "night".data ||
  containsSub (lowerStr name).data "black".data

/-! ### Theme application -/

/-- `isDarkTheme ? 'jp-mod-dark' : 'jp-mod-light'`. -/
def themeClass (isDark : Bool) : String :=
  if isDark then "jp-mod-dark" else "jp-mod-light"

inductive ThemeChoice
  | dark
  | light
  | auto
deriving DecidableEq

structure ThemeConfig where
  theme : Option ThemeChoice
  showLoadingIndicator : Bool
deriving DecidableEq

/-- The container element as the theme code observes it: its class list,
whether a descendant with id `jupyterlite-loading-indicator` exists, and
that indicator's own class list. -/
structure ContainerState where
  classes : ClassList
  hasIndicator : Bool
  indicatorClasses : ClassList
deriving DecidableEq

/-- `applyAutoTheme(container, config)`.

`storage` is the outcome of the localforage pipeline
(`import('localforage')` / `createInstance` / `getItem`): `.error` when any
of those steps throws or rejects, otherwise the stored value (`none` when
the key is absent).  `osPref` is `window.matchMedia('(prefers-color-scheme:
dark)').matches`, `.error` when `matchMedia` itself throws.  Returns the
new container class list, or `.error` when the function itself rejects
(which happens only when the catch-branch's own `matchMedia` call throws
again). -/
def applyAutoTheme (storage : Except Unit (Option String))
    (osPref : Except Unit Bool) (cl : ClassList) : Except Unit ClassList :=
  let tryBody : Except Unit ClassList := do
    let settings ← storage
    let isDark ← match settings with
      | some s =>
        if s = "" then osPref
        else pure (match extractThemeName s with
          | some name => isDarkThemeName name
          | none => false)
      | none => osPref
    pure (classAdd (classRemove (classRemove cl "jp-mod-dark") "jp-mod-light")
      (themeClass isDark))
  match tryBody with
  | .ok cl1 => .ok cl1
  | .error _ =>
    match osPref with
    | .ok isDark => .ok (classAdd cl (themeClass isDark))
    | .error e => .error e

/-- `applyThemeToContainer(container, config)`.  Total: every storage or
matchMedia failure is absorbed by this function's own catch clause. -/
def applyThemeToContainer (storage : Except Unit (Option String))
    (osPref : Except Unit Bool) (config : ThemeConfig) (st : ContainerState) :
    ContainerState :=
  if !st.hasIndicator then st
  else
    let tryBody : Except Unit ContainerState := do
      let classes1 ← match config.theme with
        | some ThemeChoice.dark =>
          pure (classRemove (classAdd st.classes "jp-mod-dark") "jp-mod-light")
        | some ThemeChoice.light =>
          pure (classRemove (classAdd st.classes "jp-mod-light") "jp-mod-dark")
        | some ThemeChoice.auto => applyAutoTheme storage osPref st.classes
        | none => pure st.classes
      let ind1 := if config.showLoadingIndicator
        then classRemove st.indicatorClasses "hidden"
        else st.indicatorClasses
      pure { st with classes := classes1, indicatorClasses := ind1 }
    match tryBody with
    | .ok st1 => st1
    | .error _ =>
      { st with classes := classRemove (classAdd st.classes "jp-mod-light") "jp-mod-dark" }

/-! ### Module federation: loadScript, loadComponent, the extension phase -/

/-- What a bundle exposes under its scope name in `window._JUPYTERLAB`:
its `init(sharedScope)` callable, abstracted by that call's outcome. -/
structure RegObj where
  initResult : Except String Unit

/-- The page environment the federation code consults: per-URL script load
success, the `__webpack_init_sharing__('default')` outcome, and the
`window._JUPYTERLAB` scope lookup. -/
structure FedEnv where
  scriptLoad : String → Bool
  initSharing : Except String Unit
  jupyterlab : String → Option RegObj

/-- One entry of `configData.federated_extensions`. -/
structure ExtensionData where
  name : String
  load : String
deriving DecidableEq

/-- The settlement of `loadScript(url)`: `onload` resolves, `onerror`
rejects with ``Failed to load script: ${url}``. -/
def loadScriptResult (env : FedEnv) (url : String) : Except String Unit :=
  if env.scriptLoad url then .ok ()
  else .error ("Failed to load script: " ++ url)

/-- `loadScript(url)` with its DOM side effect: the freshly created script
element is appended to `document.head` (modelled as the list of script
URLs in order of insertion) before the load settles either way. -/
def loadScript (env : FedEnv) (head : List String) (url : String) :
    List String × Except String Unit :=
  (head ++ [url], loadScriptResult env url)

/-- `loadComponent(url, scope)`.  Returns the number of `container.init`
invocations performed alongside the settlement of the promise. -/
def loadComponent (env : FedEnv) (url scope : String) :
    Nat × Except String Unit :=
  match loadScriptResult env url with
  | .error e => (0, .error e)
  | .ok _ =>
    match env.initSharing with
    | .error e => (0, .error e)
    | .ok _ =>
      match env.jupyterlab scope with
      | some c => (1, c.initResult)
      | none => (0, .ok ())

/-- The settlement record `Promise.allSettled` produces per promise. -/
inductive Settled
  | fulfilled
  | rejected (reason : String)
deriving DecidableEq

def settle : Except String Unit → Settled
  | .ok _ => .fulfilled
  | .error e => .rejected e

/-- `` `${labExtensionUrl}/${data.name}/${data.load}` ``. -/
def extensionUrl (labExtensionUrl : String) (d : ExtensionData) : String :=
  labExtensionUrl ++ "/" ++ d.name ++ "/" ++ d.load

/-- The extension-loading phase of `loadJupyterLiteBootstrap`:
`await Promise.allSettled(extensionData.map(data => loadComponent(...)))`.
The result is `Except`-valued because the enclosing async function could in
principle reject during this phase; `Promise.allSettled` turns each
per-descriptor outcome into a settlement record instead. -/
def loadExtensionsPhase (env : FedEnv) (labExtensionUrl : String)
    (extensionData : List ExtensionData) : Except String (List Settled) :=
  .ok (extensionData.map (fun d =>
    settle (loadComponent env (extensionUrl labExtensionUrl d) d.name).2))

/-! ### Instance registry and kernel bridge lifecycle -/

/-- A container element handle: `ref` is object identity (the `===`
comparison in `cleanupJupyterLiteInstance`), `domId` its `id` attribute
(`""` when absent, which is falsy in `container.id || ...`). -/
structure Container where
  ref : Nat
  domId : String
deriving DecidableEq

/-- The value stored in the module-level `instances` map. -/
structure InstanceRecord where
  container : Container
  jupyter : Option Nat
  bridge : Option Nat
deriving DecidableEq

/-- The loader's page-global mutable state: the `instances` map (a JS
`Map`, insertion-ordered, keyed by instance id), the `window.jupyter` and
`window.jupyterKernelBridge` handles, and an instrumentation counter for
how many times the global-teardown block (the two `delete window.*`
statements) has executed. -/
structure GlobalState where
  instances : List (String × InstanceRecord)
  jupyter : Option Nat
  jupyterKernelBridge : Option Nat
  teardownRuns : Nat
deriving DecidableEq

/-- `Map.prototype.set`: replace in place when the key exists, else append. -/
def mapSet (m : List (String × InstanceRecord)) (k : String)
    (v : InstanceRecord) : List (String × InstanceRecord) :=
  if m.any (fun p => p.1 = k) then
    m.map (fun p => if p.1 = k then (k, v) else p)
  else m ++ [(k, v)]

/-- `initializeKernelBridgeForContainer(container)`.  `now` is the
`Date.now()` value used when the container has no DOM id. -/
def initializeKernelBridgeForContainer (st : GlobalState) (container : Container)
    (now : Nat) : GlobalState :=
  let instanceId :=
    if container.domId ≠ "" then container.domId
    else "container-" ++ toString now
  let record : InstanceRecord :=
    { container := container
      jupyter := st.jupyter
      bridge := st.jupyterKernelBridge }
  { st with instances := mapSet st.instances instanceId record }

/-- The `for ... of instances.entries()` loop with `break`: delete the
first entry whose record's container is reference-equal to `container`. -/
def removeFirstMatch (m : List (String × InstanceRecord)) (c : Container) :
    List (String × InstanceRecord) :=
  match m with
  | [] => []
  | (k, r) :: rest =>
    if r.container = c then rest else (k, r) :: removeFirstMatch rest c

/-- `cleanupJupyterLiteInstance(container)`. -/
def cleanupJupyterLiteInstance (st : GlobalState) (container : Container) :
    GlobalState :=
  let st1 := { st with instances := removeFirstMatch st.instances container }
  if st1.instances.isEmpty then
    { st1 with jupyter := none, jupyterKernelBridge := none,
               teardownRuns := st1.teardownRuns + 1 }
  else st1

/-- Whether some record in the map holds this container. -/
def containsContainer (m : List (String × InstanceRecord)) (c : Container) : Bool :=
  m.any (fun p => p.2.container = c)

/-- How many records in the map hold this container. -/
def countContainer (m : List (String × InstanceRecord)) (c : Container) : Nat :=
  (m.filter (fun p => p.2.container = c)).length

/-! ### initializeInContainer -/

/-- The loaded `jupyterliteModule` as `initializeInContainer` probes it:
whether `main` / `default` are present, and the outcome of awaiting the
one that gets called. -/
structure JModule where
  hasMain : Bool
  mainResult : Except String Unit
  hasDefault : Bool
  defaultResult : Except String Unit

/-- The part of the config `initializeInContainer` reads:
`config.enableKernelBridge && config.kernelBridgeConfig?.exposeToConsole`
(an absent `kernelBridgeConfig` or `exposeToConsole` reads as `false`). -/
structure BridgeConfig where
  enableKernelBridge : Bool
  exposeToConsole : Bool
deriving DecidableEq

/-- `initializeInContainer(jupyterliteModule, container, config)`.

On success, returns the container state after the delayed cleanup callback
has run (the `setTimeout` body: detach the loading indicator, strip both
theme classes) together with the updated global state.  On failure the
catch clause rethrows, so the error propagates. -/
def initializeInContainer (m : JModule) (cfg : BridgeConfig) (c : Container)
    (cs : ContainerState) (g : GlobalState) (now : Nat) :
    Except String (ContainerState × GlobalState) :=
  let cs1 := if cs.hasIndicator
    then { cs with indicatorClasses := classAdd cs.indicatorClasses "hidden" }
    else cs
  let mainCall : Except String Unit :=
    if m.hasMain then m.mainResult
    else if m.hasDefault then m.defaultResult
    else .error "JupyterLite module does not expose expected main function"
  match mainCall with
  | .error e => .error e
  | .ok _ =>
    let g1 := if cfg.enableKernelBridge && cfg.exposeToConsole
      then initializeKernelBridgeForContainer g c now
      else g
    let cs2 := if cs1.hasIndicator then { cs1 with hasIndicator := false } else cs1
    let cs3 := { cs2 with
      classes := classRemove (classRemove cs2.classes "jp-mod-dark") "jp-mod-light" }
    .ok (cs3, g1)

/-! ### Helper lemmas -/

theorem themeClass_not_eq (d : Bool) : themeClass (!d) ≠ themeClass d := by
  cases d <;> decide

/-! ### Claim theorems -/

/-- Claim C1: the extension-loading phase of `loadJupyterLiteBootstrap`
attempts every descriptor, waits for all of them to settle, and yields one
settlement per descriptor, each determined by that descriptor alone (so
one failing descriptor never changes another's outcome); the phase itself
always resolves (in particular it rejects only if shared-scope
initialization fails, which in fact surfaces as per-descriptor
rejections). -/
theorem loadExtensionsPhase_settles_all (env : FedEnv) (labUrl : String)
    (ds : List ExtensionData) :
    ∃ rs : List Settled, loadExtensionsPhase env labUrl ds = .ok rs ∧
      rs.length = ds.length ∧
      ∀ i : Nat, rs[i]? = (ds[i]?).map (fun d =>
        settle (loadComponent env (extensionUrl labUrl d) d.name).2) := by
  refine ⟨_, rfl, List.length_map _ _, ?_⟩
  intro i
  simp [List.getElem?_map]

/-- Claim C7: every `loadScript` call appends exactly one script element
to the document head (no deduplication even when the URL is already
present), resolves exactly when the browser reports a successful load, and
on failure rejects with an error message carrying the failing URL. -/
theorem loadScript_appends_once_and_settles (env : FedEnv) (head : List String)
    (url : String) :
    (loadScript env head url).1 = head ++ [url] ∧
    (loadScript env head url).1.length = head.length + 1 ∧
    ((loadScript env head url).2 = .ok () ↔ env.scriptLoad url = true) ∧
    (env.scriptLoad url = false →
      (loadScript env head url).2 = .error ("Failed to load script: " ++ url)) := by
  refine ⟨rfl, by simp [loadScript], ?_, ?_⟩
  · unfold loadScript loadScriptResult
    constructor
    · intro h
      by_contra hb
      simp [hb] at h
    · intro h
      simp [h]
  · intro h
    simp [loadScript, loadScriptResult, h]

/-- Claim C7 witness: with an environment whose load of `"u"` fails, the
rejection carries the URL, and the head still grew by the one element. -/
theorem loadScript_appends_once_and_settles_witness :
    (loadScript ⟨fun _ => false, .ok (), fun _ => none⟩ ["u"] "u").1 = ["u", "u"] ∧
    (loadScript ⟨fun _ => false, .ok (), fun _ => none⟩ ["u"] "u").2 =
      .error ("Failed to load script: " ++ "u") := by
  have h := loadScript_appends_once_and_settles
    ⟨fun _ => false, .ok (), fun _ => none⟩ ["u"] "u"
  exact ⟨h.1, h.2.2.2 rfl⟩

/-- Claim C8: when the container has no descendant with id
`jupyterlite-loading-indicator`, `applyThemeToContainer` returns with the
container state — in particular its class list — completely unchanged,
whatever the configured theme preference and environment. -/
theorem applyThemeToContainer_no_indicator_noop
    (storage : Except Unit (Option String)) (osPref : Except Unit Bool)
    (config : ThemeConfig) (st : ContainerState)
    (h : st.hasIndicator = false) :
    applyThemeToContainer storage osPref config st = st := by
  simp [applyThemeToContainer, h]

/-- Claim C8 witness: a container without the indicator keeps its class
list even under an explicit dark preference. -/
theorem applyThemeToContainer_no_indicator_noop_witness :
    applyThemeToContainer (.ok (some "\x7b\"theme\": \"JupyterLab Dark\"\x7d"))
      (.ok true) ⟨some ThemeChoice.dark, true⟩ ⟨["x"], false, []⟩ =
      ⟨["x"], false, []⟩ :=
  applyThemeToContainer_no_indicator_noop _ _ _ _ rfl

/-- Claim C10: when the bundle's script loads, shared-scope initialization
succeeds, and `window._JUPYTERLAB` exposes nothing under the declared
scope name, `loadComponent` resolves successfully with zero `init`
invocations — the init step is silently skipped and no failure is produced
for that bundle. -/
theorem loadComponent_missing_scope_resolves (env : FedEnv) (url scope : String)
    (hload : env.scriptLoad url = true)
    (hshare : env.initSharing = .ok ())
    (hscope : env.jupyterlab scope = none) :
    loadComponent env url scope = (0, .ok ()) ∧
    settle (loadComponent env url scope).2 = .fulfilled := by
  have : loadComponent env url scope = (0, .ok ()) := by
    simp [loadComponent, loadScriptResult, hload, hshare, hscope]
  exact ⟨this, by rw [this]; rfl⟩

/-- Claim C10 witness: concrete environment with an empty page-global
registry. -/
theorem loadComponent_missing_scope_resolves_witness :
    loadComponent ⟨fun _ => true, .ok (), fun _ => none⟩ "/extensions/a/remoteEntry.js" "a"
      = (0, .ok ()) ∧
    settle (loadComponent ⟨fun _ => true, .ok (), fun _ => none⟩
      "/extensions/a/remoteEntry.js" "a").2 = .fulfilled :=
  loadComponent_missing_scope_resolves _ _ _ rfl rfl rfl

/-- Claim C6 counterexample: with preference `'dark'` but a container
lacking the loading-indicator descendant, `applyThemeToContainer` leaves
the class list empty — the container is not classified dark, refuting
"with preference 'dark' the container is always classified dark". -/
theorem applyThemeToContainer_dark_not_always_classified :
    "jp-mod-dark" ∉ (applyThemeToContainer (.ok none) (.ok false)
      ⟨some ThemeChoice.dark, false⟩ ⟨[], false, []⟩).classes := by
  decide

/-- Claim C6 (amended): with an explicit `'dark'` or `'light'` preference
the theme step performs no storage I/O — its result is independent of the
entire storage layer — and, provided the container has the
loading-indicator descendant, the container ends up classified by that
preference (its class present, the opposite class absent).  Without the
indicator the step is skipped entirely (and still touches no storage). -/
theorem applyThemeToContainer_explicit_immediate
    (storage₁ storage₂ : Except Unit (Option String)) (osPref : Except Unit Bool)
    (config : ThemeConfig) (st : ContainerState)
    (htheme : config.theme = some ThemeChoice.dark ∨
      config.theme = some ThemeChoice.light) :
    applyThemeToContainer storage₁ osPref config st =
      applyThemeToContainer storage₂ osPref config st ∧
    (st.hasIndicator = true →
      (config.theme = some ThemeChoice.dark →
        "jp-mod-dark" ∈ (applyThemeToContainer storage₁ osPref config st).classes ∧
        "jp-mod-light" ∉ (applyThemeToContainer storage₁ osPref config st).classes) ∧
      (config.theme = some ThemeChoice.light →
        "jp-mod-light" ∈ (applyThemeToContainer storage₁ osPref config st).classes ∧
        "jp-mod-dark" ∉ (applyThemeToContainer storage₁ osPref config st).classes)) := by
  constructor
  · rcases htheme with h | h <;> simp [applyThemeToContainer, h]
  · intro hind
    constructor
    · intro hd
      have hres : (applyThemeToContainer storage₁ osPref config st).classes =
          classRemove (classAdd st.classes "jp-mod-dark") "jp-mod-light" := by
        simp [applyThemeToContainer, hd, hind, pure, Except.pure,
          Bind.bind, Except.bind]
      rw [hres]
      constructor
      · simp [mem_classRemove, mem_classAdd]
      · exact self_not_mem_classRemove
    · intro hl
      have hres : (applyThemeToContainer storage₁ osPref config st).classes =
          classRemove (classAdd st.classes "jp-mod-light") "jp-mod-dark" := by
        simp [applyThemeToContainer, hl, hind, pure, Except.pure,
          Bind.bind, Except.bind]
      rw [hres]
      constructor
      · simp [mem_classRemove, mem_classAdd]
      · exact self_not_mem_classRemove

/-- Claim C6 (amended) witness: clean containers with the indicator,
under two different storage layers (one failing outright), exercising
both the `'dark'` and the `'light'` preference. -/
theorem applyThemeToContainer_explicit_immediate_witness :
    (applyThemeToContainer (.error ()) (.ok false)
        ⟨some ThemeChoice.dark, false⟩ ⟨[], true, []⟩ =
      applyThemeToContainer (.ok (some "\x7b\"theme\": \"JupyterLab Dark\"\x7d"))
        (.ok false) ⟨some ThemeChoice.dark, false⟩ ⟨[], true, []⟩ ∧
    "jp-mod-dark" ∈ (applyThemeToContainer (.error ()) (.ok false)
        ⟨some ThemeChoice.dark, false⟩ ⟨[], true, []⟩).classes ∧
    "jp-mod-light" ∉ (applyThemeToContainer (.error ()) (.ok false)
        ⟨some ThemeChoice.dark, false⟩ ⟨[], true, []⟩).classes) ∧
    (applyThemeToContainer (.error ()) (.ok true)
        ⟨some ThemeChoice.light, false⟩ ⟨[], true, []⟩ =
      applyThemeToContainer (.ok none) (.ok true)
        ⟨some ThemeChoice.light, false⟩ ⟨[], true, []⟩ ∧
    "jp-mod-light" ∈ (applyThemeToContainer (.error ()) (.ok true)
        ⟨some ThemeChoice.light, false⟩ ⟨[], true, []⟩).classes ∧
    "jp-mod-dark" ∉ (applyThemeToContainer (.error ()) (.ok true)
        ⟨some ThemeChoice.light, false⟩ ⟨[], true, []⟩).classes) := by
  have hd := applyThemeToContainer_explicit_immediate (.error ())
    (.ok (some "\x7b\"theme\": \"JupyterLab Dark\"\x7d")) (.ok false)
    ⟨some ThemeChoice.dark, false⟩ ⟨[], true, []⟩ (Or.inl rfl)
  have hl := applyThemeToContainer_explicit_immediate (.error ())
    (.ok none) (.ok true)
    ⟨some ThemeChoice.light, false⟩ ⟨[], true, []⟩ (Or.inr rfl)
  exact ⟨⟨hd.1, (hd.2 rfl).1 rfl⟩, ⟨hl.1, (hl.2 rfl).2 rfl⟩⟩

/-- Claim C9: whenever `initializeInContainer` succeeds, its delayed
cleanup step has removed both `jp-mod-dark` and `jp-mod-light` from the
container, so a successful mount ends with no theme classification class
on the container. -/
theorem initializeInContainer_strips_theme_classes (m : JModule)
    (cfg : BridgeConfig) (c : Container) (cs : ContainerState)
    (g : GlobalState) (now : Nat) (out : ContainerState × GlobalState)
    (h : initializeInContainer m cfg c cs g now = .ok out) :
    "jp-mod-dark" ∉ out.1.classes ∧ "jp-mod-light" ∉ out.1.classes := by
  unfold initializeInContainer at h
  set mainCall : Except String Unit :=
    if m.hasMain then m.mainResult
    else if m.hasDefault then m.defaultResult
    else .error "JupyterLite module does not expose expected main function" with hm
  clear_value mainCall
  cases mainCall with
  | error e => simp at h
  | ok _ =>
    simp only [Except.ok.injEq] at h
    subst h
    constructor
    · simp [mem_classRemove]
    · exact self_not_mem_classRemove

/-- Claim C9 witness: a concrete successful mount (module exposing `main`
which resolves) ends with neither theme class on the container. -/
theorem initializeInContainer_strips_theme_classes_witness :
    "jp-mod-dark" ∉ ((⟨[], false, []⟩, (⟨[], none, none, 0⟩ : GlobalState)) :
        ContainerState × GlobalState).1.classes ∧
    "jp-mod-light" ∉ ((⟨[], false, []⟩, (⟨[], none, none, 0⟩ : GlobalState)) :
        ContainerState × GlobalState).1.classes :=
  initializeInContainer_strips_theme_classes
    ⟨true, .ok (), false, .ok ()⟩ ⟨false, false⟩ ⟨0, "a"⟩
    ⟨["jp-mod-dark"], false, []⟩ ⟨[], none, none, 0⟩ 0
    (⟨[], false, []⟩, ⟨[], none, none, 0⟩) rfl

/-- Claim C4 counterexample: localforage can hold the empty string under
the theme-settings key.  That entry is present, and its extracted theme
name (there is none) contains no dark-indicating substring, so the claim
demands `light` regardless of OS preference — but `if (settings)` treats
the empty string as absent, and with OS preference dark the code resolves
dark. -/
theorem applyAutoTheme_present_empty_counterexample :
    applyAutoTheme (.ok (some "")) (.ok true) [] = .ok ["jp-mod-dark"] := rfl

/-- Claim C4 (amended): for preference `'auto'`, when the stored
theme-settings entry is present *and non-empty*, the resolved mode is dark
exactly when the extracted theme name classifies as dark (contains,
case-insensitively, `dark`, `night` or `black`), independently of the OS
preference signal; when the entry is absent, empty, or the read fails, the
resolved mode is the OS-level color-scheme preference. -/
theorem applyAutoTheme_resolution (s : String) (osPref : Except Unit Bool)
    (cl : ClassList) (d : Bool) :
    (s ≠ "" →
      applyAutoTheme (.ok (some s)) osPref cl =
        .ok (classAdd (classRemove (classRemove cl "jp-mod-dark") "jp-mod-light")
          (themeClass (match extractThemeName s with
            | some name => isDarkThemeName name
            | none => false)))) ∧
    (applyAutoTheme (.ok none) (.ok d) cl =
      .ok (classAdd (classRemove (classRemove cl "jp-mod-dark") "jp-mod-light")
        (themeClass d))) ∧
    (applyAutoTheme (.ok (some "")) (.ok d) cl =
      .ok (classAdd (classRemove (classRemove cl "jp-mod-dark") "jp-mod-light")
        (themeClass d))) ∧
    (applyAutoTheme (.error ()) (.ok d) cl =
      .ok (classAdd cl (themeClass d))) := by
  refine ⟨?_, rfl, rfl, rfl⟩
  intro hs
  simp [applyAutoTheme, hs, pure, Except.pure, Bind.bind, Except.bind]

/-- Claim C4 (amended) witness: a stored `"theme": "JupyterLab Dark"`
entry resolves dark even with the OS preferring light. -/
theorem applyAutoTheme_resolution_witness :
    applyAutoTheme (.ok (some "\x7b\"theme\": \"JupyterLab Dark\"\x7d")) (.ok false) [] =
      .ok (classAdd (classRemove (classRemove [] "jp-mod-dark") "jp-mod-light")
        (themeClass (match extractThemeName "\x7b\"theme\": \"JupyterLab Dark\"\x7d" with
          | some name => isDarkThemeName name
          | none => false))) :=
  (applyAutoTheme_resolution "\x7b\"theme\": \"JupyterLab Dark\"\x7d" (.ok false) [] false).1
    (by decide)

/-- Claim C5: theme resolution never fails the embedding.  Every failure
of `applyAutoTheme` (which requires both the storage read and the
matchMedia signal to fail) is absorbed by `applyThemeToContainer`'s own
catch clause; with the storage layer failing, the container is classified
by the OS preference when that signal is available, and light when it is
not. -/
theorem applyThemeToContainer_absorbs_failures
    (storage : Except Unit (Option String)) (osPref : Except Unit Bool)
    (config : ThemeConfig) (st : ContainerState)
    (htheme : config.theme = some ThemeChoice.auto)
    (hind : st.hasIndicator = true) :
    (applyAutoTheme storage osPref st.classes = .error () →
      applyThemeToContainer storage osPref config st =
        { st with classes :=
            classRemove (classAdd st.classes "jp-mod-light") "jp-mod-dark" }) ∧
    (∀ d : Bool, storage = .error () → osPref = .ok d →
      "jp-mod-dark" ∉ st.classes → "jp-mod-light" ∉ st.classes →
      themeClass d ∈ (applyThemeToContainer storage osPref config st).classes ∧
      themeClass (!d) ∉ (applyThemeToContainer storage osPref config st).classes) ∧
    (storage = .error () → osPref = .error () →
      "jp-mod-light" ∈ (applyThemeToContainer storage osPref config st).classes ∧
      "jp-mod-dark" ∉ (applyThemeToContainer storage osPref config st).classes) := by
  refine ⟨?_, ?_, ?_⟩
  · intro hA
    simp [applyThemeToContainer, htheme, hind, hA, pure, Except.pure,
      Bind.bind, Except.bind]
  · rintro d rfl rfl hd hl
    have hres : (applyThemeToContainer (.error ()) (.ok d) config st).classes =
        classAdd st.classes (themeClass d) := by
      simp [applyThemeToContainer, applyAutoTheme, htheme, hind, pure,
        Except.pure, Bind.bind, Except.bind]
    rw [hres]
    constructor
    · exact mem_classAdd.mpr (Or.inr rfl)
    · intro hmem
      rcases mem_classAdd.mp hmem with hin | heq
      · cases d <;> simp [themeClass] at hin <;> [exact hd hin; exact hl hin]
      · exact themeClass_not_eq d heq
  · rintro rfl rfl
    have hres : (applyThemeToContainer (.error ()) (.error ()) config st).classes =
        classRemove (classAdd st.classes "jp-mod-light") "jp-mod-dark" := by
      simp [applyThemeToContainer, applyAutoTheme, htheme, hind, pure,
        Except.pure, Bind.bind, Except.bind]
    rw [hres]
    constructor
    · exact mem_classRemove.mpr ⟨mem_classAdd.mpr (Or.inr rfl), by decide⟩
    · exact self_not_mem_classRemove

/-- Claim C5 witness: with both the storage read and the matchMedia signal
failing, a clean container with the indicator ends classified light. -/
theorem applyThemeToContainer_absorbs_failures_witness :
    (applyThemeToContainer (.error ()) (.error ())
        ⟨some ThemeChoice.auto, false⟩ ⟨[], true, []⟩ =
      { classes := classRemove (classAdd [] "jp-mod-light") "jp-mod-dark",
        hasIndicator := true, indicatorClasses := [] }) ∧
    "jp-mod-light" ∈ (applyThemeToContainer (.error ()) (.error ())
        ⟨some ThemeChoice.auto, false⟩ ⟨[], true, []⟩).classes ∧
    "jp-mod-dark" ∉ (applyThemeToContainer (.error ()) (.error ())
        ⟨some ThemeChoice.auto, false⟩ ⟨[], true, []⟩).classes := by
  have h := applyThemeToContainer_absorbs_failures (.error ()) (.error ())
    ⟨some ThemeChoice.auto, false⟩ ⟨[], true, []⟩ rfl rfl
  exact ⟨h.1 rfl, h.2.2 rfl rfl⟩

/-! ### Registry lemmas -/

theorem countContainer_cons_pos (k : String) (r : InstanceRecord)
    (rest : List (String × InstanceRecord)) (c : Container)
    (hc : r.container = c) :
    countContainer ((k, r) :: rest) c = countContainer rest c + 1 := by
  simp [countContainer, List.filter_cons, hc]

theorem countContainer_cons_neg (k : String) (r : InstanceRecord)
    (rest : List (String × InstanceRecord)) (c : Container)
    (hc : ¬r.container = c) :
    countContainer ((k, r) :: rest) c = countContainer rest c := by
  simp [countContainer, List.filter_cons, hc]

theorem contains_false_iff_count_zero (m : List (String × InstanceRecord))
    (c : Container) :
    containsContainer m c = false ↔ countContainer m c = 0 := by
  induction m with
  | nil => simp [containsContainer, countContainer]
  | cons p rest ih =>
    obtain ⟨k, r⟩ := p
    by_cases hp : r.container = c
    · rw [countContainer_cons_pos k r rest c hp]
      simp [containsContainer, List.any_cons, hp]
    · rw [countContainer_cons_neg k r rest c hp]
      simp only [containsContainer, List.any_cons, Bool.or_eq_false_iff,
        decide_eq_false_iff_not]
      rw [← ih]
      simp [containsContainer, hp]

theorem removeFirstMatch_of_not_contains (m : List (String × InstanceRecord))
    (c : Container) (h : containsContainer m c = false) :
    removeFirstMatch m c = m := by
  induction m with
  | nil => rfl
  | cons p rest ih =>
    simp only [containsContainer, List.any_cons, Bool.or_eq_false_iff,
      decide_eq_false_iff_not] at h
    obtain ⟨k, r⟩ := p
    simp only [removeFirstMatch, if_neg h.1]
    rw [ih h.2]

theorem contains_removeFirstMatch_false (m : List (String × InstanceRecord))
    (c : Container) (h : countContainer m c ≤ 1) :
    containsContainer (removeFirstMatch m c) c = false := by
  induction m with
  | nil => rfl
  | cons p rest ih =>
    obtain ⟨k, r⟩ := p
    by_cases hc : r.container = c
    · simp only [removeFirstMatch, if_pos hc]
      rw [countContainer_cons_pos k r rest c hc] at h
      exact (contains_false_iff_count_zero rest c).mpr (by omega)
    · simp only [removeFirstMatch, if_neg hc]
      rw [countContainer_cons_neg k r rest c hc] at h
      simp only [containsContainer, List.any_cons, Bool.or_eq_false_iff,
        decide_eq_false_iff_not]
      exact ⟨hc, ih h⟩

theorem cleanup_of_empty (st : GlobalState) (c : Container)
    (h : removeFirstMatch st.instances c = []) :
    cleanupJupyterLiteInstance st c = ⟨[], none, none, st.teardownRuns + 1⟩ := by
  unfold cleanupJupyterLiteInstance
  simp [h]

theorem cleanup_of_nonempty (st : GlobalState) (c : Container)
    (h : removeFirstMatch st.instances c ≠ []) :
    cleanupJupyterLiteInstance st c =
      ⟨removeFirstMatch st.instances c, st.jupyter, st.jupyterKernelBridge,
        st.teardownRuns⟩ := by
  unfold cleanupJupyterLiteInstance
  simp [h]

theorem cleanup_instances (st : GlobalState) (c : Container) :
    (cleanupJupyterLiteInstance st c).instances =
      removeFirstMatch st.instances c := by
  by_cases h : removeFirstMatch st.instances c = []
  · rw [cleanup_of_empty st c h]
    exact h.symm
  · rw [cleanup_of_nonempty st c h]

theorem cleanup_empty_clears (st : GlobalState) (c : Container)
    (h : removeFirstMatch st.instances c = []) :
    (cleanupJupyterLiteInstance st c).jupyter = none ∧
    (cleanupJupyterLiteInstance st c).jupyterKernelBridge = none := by
  rw [cleanup_of_empty st c h]
  exact ⟨rfl, rfl⟩

/-- Claim C2 counterexample: (i) one registered instance; the first
`cleanupJupyterLiteInstance` empties the registry and runs the global
teardown block, and the *second* call on the same container finds the
registry empty and runs the teardown block again — two executions of the
teardown side effect where the claim allows exactly one; (ii) with an
empty registry but `window.jupyter` still set (as the application itself
sets it), unregistering a container that was never registered clears the
handle — not a no-op. -/
theorem cleanup_second_teardown_counterexample :
    (cleanupJupyterLiteInstance
      (cleanupJupyterLiteInstance
        ⟨[("a", ⟨⟨0, "a"⟩, some 1, some 2⟩)], some 1, some 2, 0⟩
        ⟨0, "a"⟩)
      ⟨0, "a"⟩).teardownRuns = 2 ∧
    (cleanupJupyterLiteInstance ⟨[], some 5, none, 0⟩ ⟨9, "z"⟩).jupyter
      ≠ some 5 := by decide

/-- Claim C2 (amended): `cleanupJupyterLiteInstance` on a container not in
the registry is a no-op *provided the registry is non-empty*; a removal
that leaves other instances behind triggers no teardown; a removal that
empties the registry clears the page-global handles and runs the teardown
block; and a second call for the same container (registered at most once)
produces no error and leaves the registry and the page-global handles
unchanged — but when the registry is empty it does re-execute the (then
idempotent) teardown block, as the counterexample records. -/
theorem cleanupJupyterLiteInstance_lifecycle (st : GlobalState) (c : Container) :
    (containsContainer st.instances c = false → st.instances ≠ [] →
      cleanupJupyterLiteInstance st c = st) ∧
    (removeFirstMatch st.instances c ≠ [] →
      (cleanupJupyterLiteInstance st c).teardownRuns = st.teardownRuns ∧
      (cleanupJupyterLiteInstance st c).jupyter = st.jupyter ∧
      (cleanupJupyterLiteInstance st c).jupyterKernelBridge =
        st.jupyterKernelBridge) ∧
    (removeFirstMatch st.instances c = [] →
      (cleanupJupyterLiteInstance st c).teardownRuns = st.teardownRuns + 1 ∧
      (cleanupJupyterLiteInstance st c).jupyter = none ∧
      (cleanupJupyterLiteInstance st c).jupyterKernelBridge = none) ∧
    (countContainer st.instances c ≤ 1 →
      (cleanupJupyterLiteInstance (cleanupJupyterLiteInstance st c) c).instances =
        (cleanupJupyterLiteInstance st c).instances ∧
      (cleanupJupyterLiteInstance (cleanupJupyterLiteInstance st c) c).jupyter =
        (cleanupJupyterLiteInstance st c).jupyter ∧
      (cleanupJupyterLiteInstance (cleanupJupyterLiteInstance st c) c).jupyterKernelBridge =
        (cleanupJupyterLiteInstance st c).jupyterKernelBridge) := by
  refine ⟨?_, ?_, ?_, ?_⟩
  · intro hnc hne
    have h1 : removeFirstMatch st.instances c = st.instances :=
      removeFirstMatch_of_not_contains _ _ hnc
    have hne' : removeFirstMatch st.instances c ≠ [] := by rw [h1]; exact hne
    rw [cleanup_of_nonempty st c hne', h1]
  · intro hne
    rw [cleanup_of_nonempty st c hne]
    exact ⟨rfl, rfl, rfl⟩
  · intro heq
    rw [cleanup_of_empty st c heq]
    exact ⟨rfl, rfl, rfl⟩
  · intro hcount
    have h2 : containsContainer (cleanupJupyterLiteInstance st c).instances c
        = false := by
      rw [cleanup_instances]; exact contains_removeFirstMatch_false _ _ hcount
    have h3 : removeFirstMatch (cleanupJupyterLiteInstance st c).instances c =
        (cleanupJupyterLiteInstance st c).instances :=
      removeFirstMatch_of_not_contains _ _ h2
    by_cases hE : (cleanupJupyterLiteInstance st c).instances = []
    · have hrm1 : removeFirstMatch st.instances c = [] := by
        rw [← cleanup_instances st c]; exact hE
      have hj := cleanup_empty_clears st c hrm1
      have hrm2 : removeFirstMatch (cleanupJupyterLiteInstance st c).instances c
          = [] := by rw [h3]; exact hE
      rw [cleanup_of_empty (cleanupJupyterLiteInstance st c) c hrm2]
      exact ⟨hE.symm, hj.1.symm, hj.2.symm⟩
    · have hrm2 : removeFirstMatch (cleanupJupyterLiteInstance st c).instances c
          ≠ [] := by rw [h3]; exact hE
      rw [cleanup_of_nonempty (cleanupJupyterLiteInstance st c) c hrm2, h3]
      exact ⟨rfl, rfl, rfl⟩

/-- Claim C2 (amended) witness: registry holding two instances; removing
the second (non-last) container is teardown-free, and its repeat removal
changes nothing. -/
theorem cleanupJupyterLiteInstance_lifecycle_witness :
    ((cleanupJupyterLiteInstance
        ⟨[("a", ⟨⟨0, "a"⟩, some 1, some 2⟩), ("b", ⟨⟨1, "b"⟩, some 1, some 2⟩)],
          some 1, some 2, 0⟩ ⟨1, "b"⟩).teardownRuns = 0 ∧
      (cleanupJupyterLiteInstance
        ⟨[("a", ⟨⟨0, "a"⟩, some 1, some 2⟩), ("b", ⟨⟨1, "b"⟩, some 1, some 2⟩)],
          some 1, some 2, 0⟩ ⟨1, "b"⟩).jupyter = some 1 ∧
      (cleanupJupyterLiteInstance
        ⟨[("a", ⟨⟨0, "a"⟩, some 1, some 2⟩), ("b", ⟨⟨1, "b"⟩, some 1, some 2⟩)],
          some 1, some 2, 0⟩ ⟨1, "b"⟩).jupyterKernelBridge = some 2) ∧
    (cleanupJupyterLiteInstance (cleanupJupyterLiteInstance
        ⟨[("a", ⟨⟨0, "a"⟩, some 1, some 2⟩), ("b", ⟨⟨1, "b"⟩, some 1, some 2⟩)],
          some 1, some 2, 0⟩ ⟨1, "b"⟩) ⟨1, "b"⟩).instances =
      (cleanupJupyterLiteInstance
        ⟨[("a", ⟨⟨0, "a"⟩, some 1, some 2⟩), ("b", ⟨⟨1, "b"⟩, some 1, some 2⟩)],
          some 1, some 2, 0⟩ ⟨1, "b"⟩).instances := by
  have h := cleanupJupyterLiteInstance_lifecycle
    ⟨[("a", ⟨⟨0, "a"⟩, some 1, some 2⟩), ("b", ⟨⟨1, "b"⟩, some 1, some 2⟩)],
      some 1, some 2, 0⟩ ⟨1, "b"⟩
  exact ⟨h.2.1 (by decide), (h.2.2.2 (by decide)).1⟩

/-! ### mapSet lemmas -/

theorem mapSet_cons_ne (p : String × InstanceRecord)
    (rest : List (String × InstanceRecord)) (k : String) (v : InstanceRecord)
    (h : ¬p.1 = k) :
    mapSet (p :: rest) k v = p :: mapSet rest k v := by
  by_cases hr : rest.any (fun q => q.1 = k) = true <;>
    simp [mapSet, List.any_cons, h, hr]

theorem find?_mapSet (m : List (String × InstanceRecord)) (k : String)
    (v : InstanceRecord) :
    (mapSet m k v).find? (fun p => p.1 = k) = some (k, v) := by
  induction m with
  | nil => simp [mapSet, List.find?]
  | cons p rest ih =>
    by_cases hp : p.1 = k
    · have hany : (p :: rest).any (fun q => decide (q.1 = k)) = true := by
        simp [List.any_cons, hp]
      simp [mapSet, hany, List.map_cons, hp, List.find?]
    · rw [mapSet_cons_ne p rest k v hp]
      simp [List.find?, hp, ih]

theorem mapSet_key_present (m : List (String × InstanceRecord)) (k : String)
    (v : InstanceRecord) :
    (mapSet m k v).any (fun p => p.1 = k) = true := by
  induction m with
  | nil => simp [mapSet]
  | cons p rest ih =>
    by_cases hp : p.1 = k
    · simp [mapSet, List.any_cons, hp]
    · rw [mapSet_cons_ne p rest k v hp]
      simp [List.any_cons, hp, ih]

theorem mapSet_length_of_key (m : List (String × InstanceRecord)) (k : String)
    (v : InstanceRecord) (h : m.any (fun p => p.1 = k) = true) :
    (mapSet m k v).length = m.length := by
  simp [mapSet, h]

/-- Claim C3 counterexample: a container with DOM id `"a"` is already
registered (its record captured `window.jupyter = 1`); registering it
again after `window.jupyter` changed to `3` does not fail — there is no
`DuplicateInstanceError` anywhere in the code — and silently overwrites
the existing record with the new one, refuting "the existing record is
not overwritten". -/
theorem initializeKernelBridge_overwrite_counterexample :
    (initializeKernelBridgeForContainer
      ⟨[("a", ⟨⟨0, "a"⟩, some 1, some 2⟩)], some 3, some 4, 0⟩
      ⟨0, "a"⟩ 200).instances =
    [("a", ⟨⟨0, "a"⟩, some 3, some 4⟩)] := by decide

/-- Claim C3 (amended): registering the same container (with a non-empty
DOM id) twice without an intervening unregister does not fail and leaves
the registry size unchanged, but the existing record *is* overwritten: the
entry under the container's id afterwards is the record captured at the
second call. -/
theorem initializeKernelBridge_duplicate (st : GlobalState) (c : Container)
    (n₁ n₂ : Nat) (h : c.domId ≠ "") :
    (initializeKernelBridgeForContainer
        (initializeKernelBridgeForContainer st c n₁) c n₂).instances.length =
      (initializeKernelBridgeForContainer st c n₁).instances.length ∧
    (initializeKernelBridgeForContainer
        (initializeKernelBridgeForContainer st c n₁) c n₂).instances.find?
        (fun p => p.1 = c.domId) =
      some (c.domId,
        ⟨c, (initializeKernelBridgeForContainer st c n₁).jupyter,
          (initializeKernelBridgeForContainer st c n₁).jupyterKernelBridge⟩) := by
  have hinit : ∀ (g : GlobalState) (n : Nat),
      initializeKernelBridgeForContainer g c n =
        { g with instances :=
            mapSet g.instances c.domId ⟨c, g.jupyter, g.jupyterKernelBridge⟩ } := by
    intro g n
    unfold initializeKernelBridgeForContainer
    rw [if_pos h]
  simp only [hinit]
  exact ⟨mapSet_length_of_key _ _ _ (mapSet_key_present st.instances c.domId _),
    find?_mapSet _ _ _⟩

/-- Claim C3 (amended) witness: double registration of the container with
id `"a"` on an initially empty registry. -/
theorem initializeKernelBridge_duplicate_witness :
    (initializeKernelBridgeForContainer
        (initializeKernelBridgeForContainer ⟨[], some 1, some 2, 0⟩ ⟨0, "a"⟩ 1)
        ⟨0, "a"⟩ 2).instances.length =
      (initializeKernelBridgeForContainer ⟨[], some 1, some 2, 0⟩
        ⟨0, "a"⟩ 1).instances.length ∧
    (initializeKernelBridgeForContainer
        (initializeKernelBridgeForContainer ⟨[], some 1, some 2, 0⟩ ⟨0, "a"⟩ 1)
        ⟨0, "a"⟩ 2).instances.find?
        (fun p => p.1 = (⟨0, "a"⟩ : Container).domId) =
      some ((⟨0, "a"⟩ : Container).domId,
        ⟨⟨0, "a"⟩, (initializeKernelBridgeForContainer ⟨[], some 1, some 2, 0⟩
            ⟨0, "a"⟩ 1).jupyter,
          (initializeKernelBridgeForContainer ⟨[], some 1, some 2, 0⟩
            ⟨0, "a"⟩ 1).jupyterKernelBridge⟩) :=
  initializeKernelBridge_duplicate ⟨[], some 1, some 2, 0⟩ ⟨0, "a"⟩ 1 2 (by decide)

end JLLoader
